import Mathlib

/-!
Verification of `chainer/functions/activation/n_ary_tree_lstm.py`.

The file shallowly embeds the numeric core of the N-ary TreeLSTM operator:

* floating-point arrays are modelled as real-valued functions indexed by
  `(batch, feature)` (`Tensor`); all operations in the source are elementwise
  except the feature-axis gate splitting, which becomes explicit index
  arithmetic;
* `_extract_gates` is additionally embedded at the level of row-major flat
  buffers (`NArr`), following numpy's `reshape` semantics, so that the slicing
  contract can be checked against genuine flat-index arithmetic;
* `check_type_forward` is embedded as a boolean predicate over dtype/shape
  metadata;
* the CUDA kernel sources generated by the fused path are embedded as the
  strings the Python code builds, and the per-element mathematical functions
  they denote are embedded separately for the backend-equivalence claims.
-/

namespace NaryTreeLSTM

/-- A dense array, viewed elementwise: `t b k` is the element at batch index
`b` and feature index `k`.  Trailing dimensions of the source arrays are
absorbed into the feature index; every operation of the numeric core is
elementwise or slices along the feature axis. -/
abbrev Tensor : Type := ℕ → ℕ → ℝ

/-- Embedding of `_sigmoid` (source lines 27-29):
`numpy.tanh(x * half) * half + half` with `half = 0.5`. -/
noncomputable def _sigmoid (x : ℝ) : ℝ := Real.tanh (x * 0.5) * 0.5 + 0.5

/-- Embedding of `_grad_sigmoid` (source lines 32-33): `x * (1 - x)`. -/
noncomputable def _grad_sigmoid (x : ℝ) : ℝ := x * (1 - x)

/-- Embedding of `_grad_tanh` (source lines 36-37): `1 - x * x`. -/
noncomputable def _grad_tanh (x : ℝ) : ℝ := 1 - x * x

/-- Gate number `i` of the gate-source tensor `x`, whose feature width is
`nsplit * F`.  `_extract_gates` reshapes `x` to `(batch, nsplit, F)` and takes
`r[:, i, :]`; for a row-major array that slice is
`(b, k) ↦ x b (i * F + k)`.  (The flat-buffer version of `_extract_gates`
and the proof that it yields exactly these slices are below, `NArr`.) -/
def gate (F : ℕ) (x : Tensor) (i : ℕ) : Tensor := fun b k => x b (i * F + k)

/-- The forward cache: the attributes `self.a, self.i, self.o, self.fs,
self.c` stored by `NaryTreeLSTM.forward` (source lines 96-101). -/
structure Cache where
  a : Tensor
  i : Tensor
  o : Tensor
  fs : ℕ → Tensor
  c : Tensor

/-- Embedding of the generic (numpy) path of `NaryTreeLSTM.forward`
(source lines 88-102, 124) for arity `N` and per-child feature width `F`:
returns the cache together with the output pair `(self.c, h)`. -/
noncomputable def forward (N F : ℕ) (cs : ℕ → Tensor) (x : Tensor) :
    Cache × (Tensor × Tensor) :=
  let a := gate F x 0
  let i := gate F x 1
  let o := gate F x 2
  let fs := fun n => gate F x (3 + n)
  let sa : Tensor := fun b k => Real.tanh (a b k)
  let si : Tensor := fun b k => _sigmoid (i b k)
  let so : Tensor := fun b k => _sigmoid (o b k)
  let sfs : ℕ → Tensor := fun n b k => _sigmoid (fs n b k)
  let c : Tensor := fun b k =>
    sa b k * si b k + ∑ n ∈ Finset.range N, sfs n b k * cs n b k
  let h : Tensor := fun b k => so b k * Real.tanh (c b k)
  (⟨sa, si, so, sfs, c⟩, (c, h))

/-- Embedding of the generic (numpy) path of `NaryTreeLSTM.backward`
(source lines 126-153, 194).  `st` is the forward cache (`self`), `cs` the
child cells, `gco`/`gho` the optional upstream gradients `gc`/`gh`
(`None` is replaced by `0`, source lines 138-141).  The Python code returns
`list(gcs) + [gx]`; this is encoded as the pair of the family
`n ↦ gcs[n]` and the tensor `gx`, whose gate slices are written through the
`_extract_gates` views of an array shaped like `x` (so the element of `gx`
at feature index `j` belongs to slice `j / F` at offset `j % F`). -/
noncomputable def backward (N F : ℕ) (st : Cache) (cs : ℕ → Tensor)
    (gco gho : Option Tensor) : (ℕ → Tensor) × Tensor :=
  let gc : Tensor := match gco with
    | none => fun _ _ => 0
    | some g => g
  let gh : Tensor := match gho with
    | none => fun _ _ => 0
    | some g => g
  let co : Tensor := fun b k => Real.tanh (st.c b k)
  let tmp : Tensor := fun b k =>
    gh b k * st.o b k * _grad_tanh (co b k) + gc b k
  let ga : Tensor := fun b k => tmp b k * st.i b k * _grad_tanh (st.a b k)
  let gi : Tensor := fun b k => tmp b k * st.a b k * _grad_sigmoid (st.i b k)
  let go : Tensor := fun b k => gh b k * co b k * _grad_sigmoid (st.o b k)
  let gfs : ℕ → Tensor := fun n b k =>
    tmp b k * cs n b k * _grad_sigmoid (st.fs n b k)
  let gcs : ℕ → Tensor := fun n b k => tmp b k * st.fs n b k
  let gx : Tensor := fun b j =>
    if j / F = 0 then ga b (j % F)
    else if j / F = 1 then gi b (j % F)
    else if j / F = 2 then go b (j % F)
    else gfs (j / F - 3) b (j % F)
  (gcs, gx)

/-- The all-zero tensor. -/
noncomputable def zeroT : Tensor := fun _ _ => 0

/-- The device function `sigmoid` from the CUDA `_preamble`
(source lines 41-44): `tanh(x * half) * half + half` with `half = 0.5`. -/
noncomputable def sigmoidDev (x : ℝ) : ℝ := Real.tanh (x * 0.5) * 0.5 + 0.5

/-- The device function `grad_sigmoid` from the CUDA `_preamble`
(source line 45): `y * (1 - y)`. -/
noncomputable def grad_sigmoidDev (y : ℝ) : ℝ := y * (1 - y)

/-- The device function `grad_tanh` from the CUDA `_preamble`
(source line 46): `1 - y * y`. -/
noncomputable def grad_tanhDev (y : ℝ) : ℝ := 1 - y * y

/-- The mathematical function computed by the fused forward kernel
`treelstm_fwd` (source lines 104-122): per element,
`COMMON_ROUTINE; c = aa * ai + af1 * c1 + ... + afN * cN;
h = ao * tanh(c);`, where the generated code unrolls the sum over the `N`
children and the inputs `a, i_, o, f1..fN` are the gate slices of `x`. -/
noncomputable def forwardGPU (N F : ℕ) (cs : ℕ → Tensor) (x : Tensor) :
    Tensor × Tensor :=
  let a := gate F x 0
  let i := gate F x 1
  let o := gate F x 2
  let fs := fun n => gate F x (3 + n)
  let c : Tensor := fun b k =>
    Real.tanh (a b k) * sigmoidDev (i b k)
      + ∑ j ∈ Finset.range N, sigmoidDev (fs j b k) * cs j b k
  let h : Tensor := fun b k => sigmoidDev (o b k) * Real.tanh (c b k)
  (c, h)

/-- The mathematical function computed by the fused backward kernel
`treelstm_bwd` together with the surrounding gradient assembly
(source lines 126-141, 154-192, 194): the raw gates are re-extracted from
`x`, the kernel recomputes the activations and writes `ga, gi, go,
gc1..gcN, gf1..gfN`; `cPrev` is the cached cell state `self.c` passed as
the kernel input `c`.  Absent upstream gradients are replaced by `0`
(source lines 138-141, shared with the generic path). -/
noncomputable def backwardGPU (N F : ℕ) (cs : ℕ → Tensor) (x : Tensor)
    (cPrev : Tensor) (gco gho : Option Tensor) : (ℕ → Tensor) × Tensor :=
  let gc : Tensor := match gco with
    | none => fun _ _ => 0
    | some g => g
  let gh : Tensor := match gho with
    | none => fun _ _ => 0
    | some g => g
  let a := gate F x 0
  let i := gate F x 1
  let o := gate F x 2
  let fs := fun n => gate F x (3 + n)
  let aa : Tensor := fun b k => Real.tanh (a b k)
  let ai : Tensor := fun b k => sigmoidDev (i b k)
  let ao : Tensor := fun b k => sigmoidDev (o b k)
  let af : ℕ → Tensor := fun j b k => sigmoidDev (fs j b k)
  let co : Tensor := fun b k => Real.tanh (cPrev b k)
  let temp : Tensor := fun b k =>
    gh b k * ao b k * grad_tanhDev (co b k) + gc b k
  let ga : Tensor := fun b k => temp b k * ai b k * grad_tanhDev (aa b k)
  let gi : Tensor := fun b k => temp b k * aa b k * grad_sigmoidDev (ai b k)
  let go : Tensor := fun b k => gh b k * co b k * grad_sigmoidDev (ao b k)
  let gfs : ℕ → Tensor := fun j b k =>
    temp b k * cs j b k * grad_sigmoidDev (af j b k)
  let gcs : ℕ → Tensor := fun j b k => temp b k * af j b k
  let gx : Tensor := fun b j =>
    if j / F = 0 then ga b (j % F)
    else if j / F = 1 then gi b (j % F)
    else if j / F = 2 then go b (j % F)
    else gfs (j / F - 3) b (j % F)
  (gcs, gx)

/-- A dense 2-d array as a row-major flat buffer, used to check the gate
splitter against numpy reshape/slice semantics: the element at `(r, c)` is
`data (r * cols + c)`. -/
structure NArr where
  rows : ℕ
  cols : ℕ
  data : ℕ → ℝ

/-- Element of a flat row-major 2-d array. -/
def NArr.entry (x : NArr) (r c : ℕ) : ℝ := x.data (r * x.cols + c)

/-- A dense 3-d array as a row-major flat buffer: the element at
`(r, i, k)` is `data (r * (d2 * d3) + i * d3 + k)`. -/
structure NArr3 where
  d1 : ℕ
  d2 : ℕ
  d3 : ℕ
  data : ℕ → ℝ

/-- numpy `x.reshape((x.shape[0], s, x.shape[1] // s))` on a contiguous
row-major array: the flat buffer is unchanged, only the shape changes. -/
def NArr.reshape3 (x : NArr) (s : ℕ) : NArr3 := ⟨x.rows, s, x.cols / s, x.data⟩

/-- numpy basic slice `r[:, i, :]` of a 3-d array, re-flattened row-major:
element `(r, k)` of the result is element `(r, i, k)` of the input. -/
def NArr3.sliceMid (r : NArr3) (i : ℕ) : NArr :=
  ⟨r.d1, r.d3, fun m => r.data (m / r.d3 * (r.d2 * r.d3) + i * r.d3 + m % r.d3)⟩

/-- Embedding of `_extract_gates` (source lines 9-24):
`r = x.reshape((x.shape[0], n_split, x.shape[1] // n_split))` followed by
`(r[:, i, :] for i in range(n_split))`. -/
def _extract_gates (x : NArr) (nsplit : ℕ) : List NArr :=
  (List.range nsplit).map (fun i => (x.reshape3 nsplit).sliceMid i)

/-- numpy column slice `x[:, lo:lo+len]`, re-flattened row-major: element
`(r, k)` of the result is element `(r, lo + k)` of the input. -/
def NArr.colSlice (x : NArr) (lo len : ℕ) : NArr :=
  ⟨x.rows, len, fun m => x.data (m / len * x.cols + (lo + m % len))⟩

/-- Default array for out-of-range list access. -/
def arr0 : NArr := ⟨0, 0, fun _ => 0⟩

/-- The numpy dtypes relevant to the type check, with their dtype kind. -/
inductive DType
  | float16
  | float32
  | float64
  | int32
  | int64
deriving DecidableEq

/-- The numpy `dtype.kind` character of a dtype. -/
def DType.kind : DType → Char
  | float16 => 'f'
  | float32 => 'f'
  | float64 => 'f'
  | int32 => 'i'
  | int64 => 'i'

/-- The dtype/shape metadata of one input, as seen by `check_type_forward`. -/
structure TypeInfo where
  dtype : DType
  shape : List ℕ

/-- Default used for out-of-range list access in the embedding of the check
(the inputs relevant to the claims never reach the default). -/
def tinfo0 : TypeInfo := ⟨DType.float32, []⟩

/-- Embedding of `NaryTreeLSTM.check_type_forward` (source lines 69-86) as a
boolean acceptance predicate: `expect` of a conjunction becomes `&&`; the
checks are, in source order, `size >= 3`, `x.ndim >= 2`, and for every child
`i`: `c.dtype.kind == 'f'`, `x.dtype == c.dtype`, `c.ndim >= 2`,
`c.ndim == x.ndim`, `x.shape[0] == c.shape[0]`,
`x.shape[1] == (3 + n_ary) * c.shape[1]`, and for every `j` in
`range(2, c.ndim)`: `x.shape[i] == c.shape[j]` (the source compares against
`x.shape[i]`, with the child index `i`, not `x.shape[j]`). -/
def checkTypeForward (inTypes : List TypeInfo) : Bool :=
  decide (3 ≤ inTypes.length) &&
  (let cTypes := inTypes.dropLast
   let xType := inTypes.getLast?.getD tinfo0
   let nAry := cTypes.length
   decide (2 ≤ xType.shape.length) &&
   (List.range nAry).all (fun i =>
     let c := cTypes.getD i tinfo0
     decide (DType.kind c.dtype = 'f') &&
     decide (xType.dtype = c.dtype) &&
     decide (2 ≤ c.shape.length) &&
     decide (c.shape.length = xType.shape.length) &&
     decide (xType.shape.getD 0 0 = c.shape.getD 0 0) &&
     decide (xType.shape.getD 1 0 = (3 + nAry) * c.shape.getD 1 0) &&
     (List.range' 2 (c.shape.length - 2)).all (fun j =>
       decide (xType.shape.getD i 0 = c.shape.getD j 0))))

/-- Python `sep.join(l)`. -/
def joinSep (sep : String) : List String → String
  | [] => ""
  | [s] => s
  | s :: rest => s ++ sep ++ joinSep sep rest

/-- A comma-separated parameter list of numbered names built from the prefix
`p`: Python `', '.join('P{}'.format(j) for j in range(1, n + 1))` for the
various `'T c{}'`-style templates (source lines 107-112, 162-175). -/
def gateList (p : String) (n : ℕ) : String :=
  joinSep ", " ((List.range' 1 n).map (fun j => p ++ toString j))

/-- Embedding of the module-level `_preamble` string (source lines 40-52). -/
def _preamble : String := "\ntemplate <typename T> __device__ T sigmoid(T x) \x7b\n    const T half = 0.5;\n    return tanh(x * half) * half + half;\n\x7d\ntemplate <typename T> __device__ T grad_sigmoid(T y) \x7b return y * (1 - y); \x7d\ntemplate <typename T> __device__ T grad_tanh(T y) \x7b return 1 - y * y; \x7d\n\n#define COMMON_ROUTINE \\\n    T aa = tanh(a); \\\n    T ai = sigmoid(i_); \\\n    T ao = sigmoid(o); \\\n"

/-- The pieces of text passed to `cuda.elementwise`: input parameter list,
output parameter list, operation body, kernel name, preamble. -/
structure KernelSrc where
  inParams : String
  outParams : String
  operation : String
  kname : String
  preamble : String

/-- The arity-dependent preamble built by both kernels (source lines
104-106, 159-161): `_preamble` followed by the space-joined
`'T af{j} = sigmoid(f{j});'` declarations. -/
def kernelPreamble (n : ℕ) : String :=
  _preamble ++ joinSep " " ((List.range' 1 n).map
    (fun j => "T af" ++ toString j ++ " = sigmoid(f" ++ toString j ++ ");"))

/-- The source text of the fused forward kernel generated for arity `n`
(source lines 104-121): parameter lists, body and preamble exactly as the
Python string templating produces them. -/
def treelstm_fwd_src (n : ℕ) : KernelSrc :=
  ⟨"T a, T i_, T o, " ++ gateList "T c" n ++ ", " ++ gateList "T f" n,
   "T c, T h",
   "\n                    COMMON_ROUTINE;\n                    c = aa * ai + "
     ++ joinSep " + " ((List.range' 1 n).map
          (fun j => "af" ++ toString j ++ " * c" ++ toString j))
     ++ ";\n                    h = ao * tanh(c);\n                ",
   "treelstm_fwd",
   kernelPreamble n⟩

/-- The source text of the fused backward kernel generated for arity `n`
(source lines 159-191): parameter lists, body and preamble exactly as the
Python string templating produces them. -/
def treelstm_bwd_src (n : ℕ) : KernelSrc :=
  ⟨"T c, T gc, T gh, T a, T i_, T o, " ++ gateList "T c" n ++ ", "
     ++ gateList "T f" n,
   "T ga, T gi, T go, " ++ gateList "T gc" n ++ ", " ++ gateList "T gf" n,
   "\n                    COMMON_ROUTINE;\n                    T co = tanh(c);\n                    T temp = gh * ao * grad_tanh(co) + gc;\n                    ga = temp * ai * grad_tanh(aa);\n                    gi = temp * aa * grad_sigmoid(ai);\n                    go = gh * co * grad_sigmoid(ao);\n                    "
     ++ joinSep "\n    " ((List.range' 1 n).map
          (fun j => "gf" ++ toString j ++ " = temp * c" ++ toString j
            ++ " * grad_sigmoid(af" ++ toString j ++ ");"))
     ++ "\n                    "
     ++ joinSep "\n    " ((List.range' 1 n).map
          (fun j => "gc" ++ toString j ++ " = temp * af" ++ toString j ++ ";"))
     ++ "\n                ",
   "treelstm_bwd",
   kernelPreamble n⟩

end NaryTreeLSTM

namespace NaryTreeLSTM

/-- Helper: dividing `i * F + k` by `F` recovers the slice number `i`. -/
theorem idx_div (i F k : ℕ) (hk : k < F) : (i * F + k) / F = i := by
  rw [Nat.add_comm, Nat.add_mul_div_right _ _ (Nat.lt_of_le_of_lt (Nat.zero_le k) hk),
    Nat.div_eq_of_lt hk, Nat.zero_add]

/-- Helper: reducing `i * F + k` mod `F` recovers the offset `k`. -/
theorem idx_mod (i F k : ℕ) (hk : k < F) : (i * F + k) % F = k := by
  rw [Nat.add_comm, Nat.add_mul_mod_self_right, Nat.mod_eq_of_lt hk]

/-- C1: for every arity `N ≥ 2` and inputs of matching shapes, `forward`
splits `x` into `3 + N` equal feature slices `a, i, o, f_1..f_N` and returns
the pair `(c, h)` with `c = tanh(a) * sigmoid(i) + Σ_n sigmoid(f_n) * c_n`
and `h = sigmoid(o) * tanh(c)`, computed elementwise, where
`sigmoid(x) = tanh(x/2) * 0.5 + 0.5` (which is `_sigmoid`). -/
theorem C1_forward_formula (N F : ℕ) (cs : ℕ → Tensor) (x : Tensor)
    (b k : ℕ) (hN : 2 ≤ N) (hk : k < F) :
    (forward N F cs x).2.1 b k =
      Real.tanh (x b k) * _sigmoid (x b (F + k))
        + ∑ n ∈ Finset.range N, _sigmoid (x b ((3 + n) * F + k)) * cs n b k ∧
    (forward N F cs x).2.2 b k =
      _sigmoid (x b (2 * F + k)) * Real.tanh ((forward N F cs x).2.1 b k) := by
  constructor <;> simp [forward, gate, Nat.zero_mul, Nat.one_mul, Nat.zero_add]

/-- Witness for C1 at `N = 2`, `F = 1`, all-zero inputs. -/
theorem C1_forward_formula_witness :
    2 ≤ 2 ∧ (0 < 1 ∧
      ((forward 2 1 (fun _ _ _ => 0) (fun _ _ => 0)).2.1 0 0 =
        Real.tanh 0 * _sigmoid 0 + ∑ n ∈ Finset.range 2, _sigmoid 0 * 0 ∧
      (forward 2 1 (fun _ _ _ => 0) (fun _ _ => 0)).2.2 0 0 =
        _sigmoid 0 *
          Real.tanh ((forward 2 1 (fun _ _ _ => 0) (fun _ _ => 0)).2.1 0 0))) :=
  ⟨by decide, by decide,
    C1_forward_formula 2 1 (fun _ _ _ => 0) (fun _ _ => 0) 0 0
      (by decide) (by decide)⟩

/-- C2: for every arity `N ≥ 2`, `backward`, given the forward cache
`(A, I, O, F_1..F_N, c)`, the child cells, and upstream gradients `gc`, `gh`,
returns `gc_n = tmp * F_n` as the gradient for child `n`, and a gate-source
gradient `gx` whose feature slices are, in order,
`ga = tmp * I * (1 - A^2)`, `gi = tmp * A * I * (1 - I)`,
`go = gh * co * O * (1 - O)`, `gf_n = tmp * c_n * F_n * (1 - F_n)`,
where `co = tanh(c)` and `tmp = gh * O * (1 - co^2) + gc`. -/
theorem C2_backward_formula (N F : ℕ) (st : Cache) (cs : ℕ → Tensor)
    (gc gh : Tensor) (n b k : ℕ) (hN : 2 ≤ N) (hn : n < N) (hk : k < F) :
    (backward N F st cs (some gc) (some gh)).1 n b k =
      (gh b k * st.o b k * (1 - Real.tanh (st.c b k) ^ 2) + gc b k)
        * st.fs n b k ∧
    (backward N F st cs (some gc) (some gh)).2 b k =
      (gh b k * st.o b k * (1 - Real.tanh (st.c b k) ^ 2) + gc b k)
        * st.i b k * (1 - st.a b k ^ 2) ∧
    (backward N F st cs (some gc) (some gh)).2 b (F + k) =
      (gh b k * st.o b k * (1 - Real.tanh (st.c b k) ^ 2) + gc b k)
        * st.a b k * st.i b k * (1 - st.i b k) ∧
    (backward N F st cs (some gc) (some gh)).2 b (2 * F + k) =
      gh b k * Real.tanh (st.c b k) * st.o b k * (1 - st.o b k) ∧
    (backward N F st cs (some gc) (some gh)).2 b ((3 + n) * F + k) =
      (gh b k * st.o b k * (1 - Real.tanh (st.c b k) ^ 2) + gc b k)
        * cs n b k * st.fs n b k * (1 - st.fs n b k) := by
  refine ⟨?_, ?_, ?_, ?_, ?_⟩
  · simp only [backward, _grad_tanh, _grad_sigmoid]
    ring
  · simp [backward, _grad_tanh, _grad_sigmoid,
      Nat.div_eq_of_lt hk, Nat.mod_eq_of_lt hk]
    ring
  · have hF : 0 < F := Nat.lt_of_le_of_lt (Nat.zero_le k) hk
    have hd : (F + k) / F = 1 := by
      rw [Nat.add_comm, Nat.add_div_right _ hF, Nat.div_eq_of_lt hk]
    have hm : (F + k) % F = k := by
      rw [Nat.add_comm, Nat.add_mod_right, Nat.mod_eq_of_lt hk]
    simp [backward, _grad_tanh, _grad_sigmoid, hd, hm]
    ring
  · simp [backward, _grad_tanh, _grad_sigmoid, idx_div 2 F k hk,
      idx_mod 2 F k hk]
    ring
  · simp only [backward, _grad_tanh, _grad_sigmoid, idx_div (3 + n) F k hk,
      idx_mod (3 + n) F k hk]
    rw [if_neg (by omega), if_neg (by omega), if_neg (by omega)]
    simp only [Nat.add_sub_cancel_left]
    ring

/-- Witness for C2 at `N = 2`, `F = 1`, `n = 0`, an all-zero cache and child
cells, `gc = 1`, `gh = 0`. -/
theorem C2_backward_formula_witness :
    2 ≤ 2 ∧ (0 < 2 ∧ (0 < 1 ∧
      ((backward 2 1 ⟨fun _ _ => 0, fun _ _ => 0, fun _ _ => 0,
          fun _ _ _ => 0, fun _ _ => 0⟩ (fun _ _ _ => 0)
          (some (fun _ _ => 1)) (some (fun _ _ => 0))).1 0 0 0 =
        (0 * 0 * (1 - Real.tanh 0 ^ 2) + 1) * 0 ∧
      (backward 2 1 ⟨fun _ _ => 0, fun _ _ => 0, fun _ _ => 0,
          fun _ _ _ => 0, fun _ _ => 0⟩ (fun _ _ _ => 0)
          (some (fun _ _ => 1)) (some (fun _ _ => 0))).2 0 0 =
        (0 * 0 * (1 - Real.tanh 0 ^ 2) + 1) * 0 * (1 - 0 ^ 2) ∧
      (backward 2 1 ⟨fun _ _ => 0, fun _ _ => 0, fun _ _ => 0,
          fun _ _ _ => 0, fun _ _ => 0⟩ (fun _ _ _ => 0)
          (some (fun _ _ => 1)) (some (fun _ _ => 0))).2 0 (1 + 0) =
        (0 * 0 * (1 - Real.tanh 0 ^ 2) + 1) * 0 * 0 * (1 - 0) ∧
      (backward 2 1 ⟨fun _ _ => 0, fun _ _ => 0, fun _ _ => 0,
          fun _ _ _ => 0, fun _ _ => 0⟩ (fun _ _ _ => 0)
          (some (fun _ _ => 1)) (some (fun _ _ => 0))).2 0 (2 * 1 + 0) =
        0 * Real.tanh 0 * 0 * (1 - 0) ∧
      (backward 2 1 ⟨fun _ _ => 0, fun _ _ => 0, fun _ _ => 0,
          fun _ _ _ => 0, fun _ _ => 0⟩ (fun _ _ _ => 0)
          (some (fun _ _ => 1)) (some (fun _ _ => 0))).2 0 ((3 + 0) * 1 + 0) =
        (0 * 0 * (1 - Real.tanh 0 ^ 2) + 1) * 0 * 0 * (1 - 0)))) :=
  ⟨by decide, by decide, by decide,
    C2_backward_formula 2 1
      ⟨fun _ _ => 0, fun _ _ => 0, fun _ _ => 0, fun _ _ _ => 0, fun _ _ => 0⟩
      (fun _ _ _ => 0) (fun _ _ => 1) (fun _ _ => 0) 0 0 0
      (by decide) (by decide) (by decide)⟩

/-- C3: in the concrete scenario `N = 2`, batch 1, feature 1, `c_1 = 1`,
`c_2 = 2` and all five gate logits zero, `forward` returns `c = 1.5` and
`h = 0.5 * tanh 1.5`, and `backward` with `grad_new_cell = 1` and
`grad_output = 0` returns `gc_1 = 0.5`, `gc_2 = 0.5` and gate-source
gradient slices `ga = 0.5`, `gi = 0`, `go = 0`, `gf_1 = 0.25`,
`gf_2 = 0.5`. -/
theorem C3_concrete_scenario :
    (forward 2 1 (fun n _ _ => if n = 0 then 1 else 2) (fun _ _ => 0)).2.1 0 0
      = 1.5 ∧
    (forward 2 1 (fun n _ _ => if n = 0 then 1 else 2) (fun _ _ => 0)).2.2 0 0
      = 0.5 * Real.tanh 1.5 ∧
    (backward 2 1
      (forward 2 1 (fun n _ _ => if n = 0 then 1 else 2) (fun _ _ => 0)).1
      (fun n _ _ => if n = 0 then 1 else 2)
      (some (fun _ _ => 1)) (some (fun _ _ => 0))).1 0 0 0 = 0.5 ∧
    (backward 2 1
      (forward 2 1 (fun n _ _ => if n = 0 then 1 else 2) (fun _ _ => 0)).1
      (fun n _ _ => if n = 0 then 1 else 2)
      (some (fun _ _ => 1)) (some (fun _ _ => 0))).1 1 0 0 = 0.5 ∧
    (backward 2 1
      (forward 2 1 (fun n _ _ => if n = 0 then 1 else 2) (fun _ _ => 0)).1
      (fun n _ _ => if n = 0 then 1 else 2)
      (some (fun _ _ => 1)) (some (fun _ _ => 0))).2 0 0 = 0.5 ∧
    (backward 2 1
      (forward 2 1 (fun n _ _ => if n = 0 then 1 else 2) (fun _ _ => 0)).1
      (fun n _ _ => if n = 0 then 1 else 2)
      (some (fun _ _ => 1)) (some (fun _ _ => 0))).2 0 1 = 0 ∧
    (backward 2 1
      (forward 2 1 (fun n _ _ => if n = 0 then 1 else 2) (fun _ _ => 0)).1
      (fun n _ _ => if n = 0 then 1 else 2)
      (some (fun _ _ => 1)) (some (fun _ _ => 0))).2 0 2 = 0 ∧
    (backward 2 1
      (forward 2 1 (fun n _ _ => if n = 0 then 1 else 2) (fun _ _ => 0)).1
      (fun n _ _ => if n = 0 then 1 else 2)
      (some (fun _ _ => 1)) (some (fun _ _ => 0))).2 0 3 = 0.25 ∧
    (backward 2 1
      (forward 2 1 (fun n _ _ => if n = 0 then 1 else 2) (fun _ _ => 0)).1
      (fun n _ _ => if n = 0 then 1 else 2)
      (some (fun _ _ => 1)) (some (fun _ _ => 0))).2 0 4 = 0.5 := by
  refine ⟨?_, ?_, ?_, ?_, ?_, ?_, ?_, ?_, ?_⟩ <;>
    norm_num [forward, backward, gate, _sigmoid, _grad_sigmoid, _grad_tanh,
      Finset.sum_range_succ, Real.tanh_zero]

/-- C4: for every input and either upstream gradient, calling `backward` with
that gradient absent (`None`) returns exactly the same result as calling it
with an all-zero tensor supplied in its place. -/
theorem C4_absent_gradient_default (N F : ℕ) (st : Cache) (cs : ℕ → Tensor)
    (gco gho : Option Tensor) :
    backward N F st cs none gho = backward N F st cs (some zeroT) gho ∧
    backward N F st cs gco none = backward N F st cs gco (some zeroT) := by
  exact ⟨rfl, rfl⟩

/-- C10: when both upstream gradients are absent, `backward` returns all-zero
gradients: every child-cell gradient is zero and every element of the
gate-source gradient `gx` (hence every feature slice of it) is zero. -/
theorem C10_absent_both_zero (N F : ℕ) (st : Cache) (cs : ℕ → Tensor)
    (n b k j : ℕ) :
    (backward N F st cs none none).1 n b k = 0 ∧
    (backward N F st cs none none).2 b j = 0 := by
  constructor
  · simp [backward, _grad_tanh, _grad_sigmoid]
  · simp only [backward, _grad_tanh, _grad_sigmoid]
    split <;> simp

/-- C9: the generic elementwise path and the fused-kernel path compute the
same mathematical function: for every input the forward outputs agree, and,
with the cache produced by the matching forward, the backward gradients
agree, for every combination of present/absent upstream gradients.  (In the
real-valued model the two paths agree exactly, hence in particular within
any floating tolerance.) -/
theorem C9_backend_equivalence (N F : ℕ) (cs : ℕ → Tensor) (x : Tensor)
    (gco gho : Option Tensor) :
    forwardGPU N F cs x = (forward N F cs x).2 ∧
    backwardGPU N F cs x (forward N F cs x).1.c gco gho
      = backward N F (forward N F cs x).1 cs gco gho :=
  ⟨rfl, rfl⟩

/-- C7 (flat-buffer form): for a gate-source array `x` of feature width
`(3 + N) * F`, `_extract_gates` returns exactly `3 + N` arrays, each of
feature width `F`, and gate `i` is exactly the contiguous column slice
`x[:, i*F:(i+1)*F]`, elementwise. -/
theorem C7_extract_gates_slices (x : NArr) (N F i r k : ℕ)
    (hW : x.cols = (3 + N) * F) (hF : 0 < F) (hi : i < 3 + N) (hk : k < F) :
    (_extract_gates x (3 + N)).length = 3 + N ∧
    ((_extract_gates x (3 + N)).getD i arr0).cols = F ∧
    ((_extract_gates x (3 + N)).getD i arr0).entry r k
      = x.entry r (i * F + k) ∧
    ((_extract_gates x (3 + N)).getD i arr0).entry r k
      = (x.colSlice (i * F) F).entry r k := by
  have hs : 0 < 3 + N := by omega
  have hcols : x.cols / (3 + N) = F := by
    rw [hW, Nat.mul_div_cancel_left _ hs]
  have hgd : (_extract_gates x (3 + N)).getD i arr0
      = (x.reshape3 (3 + N)).sliceMid i := by
    simp [_extract_gates, List.getD_eq_getElem?_getD, List.getElem?_map,
      List.getElem?_range, hi]
  have hmain : ((_extract_gates x (3 + N)).getD i arr0).entry r k
      = x.entry r (i * F + k) := by
    rw [hgd]
    simp only [NArr3.sliceMid, NArr.reshape3, NArr.entry, hcols]
    rw [idx_div r F k hk, idx_mod r F k hk, hW, Nat.add_assoc]
  refine ⟨by simp [_extract_gates], ?_, hmain, ?_⟩
  · rw [hgd]
    simp [NArr3.sliceMid, NArr.reshape3, hcols]
  · rw [hmain]
    simp only [NArr.colSlice, NArr.entry]
    rw [idx_div r F k hk, idx_mod r F k hk]

/-- Witness for C7 at a `1 × 5` array with `N = 2`, `F = 1`, gate `i = 3`. -/
theorem C7_extract_gates_slices_witness :
    (⟨1, 5, fun _ => 0⟩ : NArr).cols = (3 + 2) * 1 ∧ (0 < 1 ∧ (3 < 3 + 2 ∧
      ((_extract_gates ⟨1, 5, fun _ => 0⟩ (3 + 2)).length = 3 + 2 ∧
       ((_extract_gates ⟨1, 5, fun _ => 0⟩ (3 + 2)).getD 3 arr0).cols = 1 ∧
       ((_extract_gates ⟨1, 5, fun _ => 0⟩ (3 + 2)).getD 3 arr0).entry 0 0
         = (⟨1, 5, fun _ => 0⟩ : NArr).entry 0 3 ∧
       ((_extract_gates ⟨1, 5, fun _ => 0⟩ (3 + 2)).getD 3 arr0).entry 0 0
         = ((⟨1, 5, fun _ => 0⟩ : NArr).colSlice 3 1).entry 0 0))) :=
  ⟨rfl, by decide, by decide,
    C7_extract_gates_slices ⟨1, 5, fun _ => 0⟩ 2 1 3 0 0 rfl
      (by decide) (by decide) (by decide)⟩

/-- C5 (code bug): `check_type_forward` accepts an input tuple whose
trailing dimensions all disagree between the gate-source tensor and the
children, because line 86 of the source compares `x_type.shape[i]` (with
the child index `i`) instead of `x_type.shape[j]` against
`c_types[i].shape[j]`.  Here `x` has shape `(2, 5, 9)` and the children
have shapes `(2, 1, 2)` and `(2, 1, 5)`: the check passes even though the
trailing dimensions `9`, `2` and `5` all differ. -/
theorem C5_trailing_dim_check_bug :
    checkTypeForward [⟨DType.float32, [2, 1, 2]⟩, ⟨DType.float32, [2, 1, 5]⟩,
      ⟨DType.float32, [2, 5, 9]⟩] = true ∧
    (⟨DType.float32, [2, 5, 9]⟩ : TypeInfo).shape.getD 2 0
      ≠ (⟨DType.float32, [2, 1, 2]⟩ : TypeInfo).shape.getD 2 0 ∧
    (⟨DType.float32, [2, 5, 9]⟩ : TypeInfo).shape.getD 2 0
      ≠ (⟨DType.float32, [2, 1, 5]⟩ : TypeInfo).shape.getD 2 0 := by
  refine ⟨by decide, by decide, by decide⟩

/-- C6: whenever `check_type_forward` accepts, there are at least 3 inputs
(hence at least 2 children; a tuple with fewer than 3 tensors is rejected)
and the gate-source dtype is floating; moreover every child has a floating
dtype equal to the gate-source dtype (so all dtypes are the same floating
dtype) and the gate-source feature width is exactly `(3 + N)` times the
child's feature width; contrapositively, an input violating any of these is
rejected.  The size and dtype-kind conclusions hold unconditionally for any
accepted tuple; the per-child conclusions are guarded only by the child
index being in range. -/
theorem C6_type_check_rejects (ts : List TypeInfo) (i : ℕ)
    (hacc : checkTypeForward ts = true) :
    3 ≤ ts.length ∧
    DType.kind (ts.getLast?.getD tinfo0).dtype = 'f' ∧
    (i < ts.length - 1 →
      DType.kind (ts.dropLast.getD i tinfo0).dtype = 'f' ∧
      (ts.getLast?.getD tinfo0).dtype = (ts.dropLast.getD i tinfo0).dtype ∧
      (ts.getLast?.getD tinfo0).shape.getD 1 0
        = (3 + (ts.length - 1))
            * ((ts.dropLast.getD i tinfo0).shape.getD 1 0)) := by
  simp only [checkTypeForward, Bool.and_eq_true, decide_eq_true_eq,
    List.all_eq_true, List.mem_range] at hacc
  obtain ⟨h3, _, hall⟩ := hacc
  have h0 := hall 0 (by rw [List.length_dropLast]; omega)
  obtain ⟨⟨⟨⟨⟨⟨hkind0, hdty0⟩, _⟩, _⟩, _⟩, _⟩, _⟩ := h0
  refine ⟨h3, by rw [hdty0]; exact hkind0, ?_⟩
  intro hi
  have hx := hall i (by simpa [List.length_dropLast] using hi)
  obtain ⟨⟨⟨⟨⟨⟨hkind, hdty⟩, _⟩, _⟩, _⟩, hsh1⟩, _⟩ := hx
  exact ⟨hkind, hdty, by simpa [List.length_dropLast] using hsh1⟩

/-- Witness for C6 at an accepted input: two children of shape `(1, 1)` and
a gate-source of shape `(1, 5)`, all `float32`. -/
theorem C6_type_check_rejects_witness :
    checkTypeForward [⟨DType.float32, [1, 1]⟩, ⟨DType.float32, [1, 1]⟩,
        ⟨DType.float32, [1, 5]⟩] = true ∧
    ((3 : ℕ) ≤ 3 ∧ DType.kind DType.float32 = 'f' ∧
      ((0 : ℕ) < 3 - 1 →
        DType.kind DType.float32 = 'f' ∧
        DType.float32 = DType.float32 ∧
        (5 : ℕ) = (3 + 2) * 1)) :=
  ⟨by decide,
    C6_type_check_rejects [⟨DType.float32, [1, 1]⟩, ⟨DType.float32, [1, 1]⟩,
      ⟨DType.float32, [1, 5]⟩] 0 (by decide)⟩

/-- Helper: joining a list extended on the right by one element. -/
theorem joinSep_append (sep : String) (l : List String) (x : String)
    (h : l ≠ []) :
    joinSep sep (l ++ [x]) = joinSep sep l ++ sep ++ x := by
  induction l with
  | nil => exact absurd rfl h
  | cons a t ih =>
    cases t with
    | nil => simp [joinSep]
    | cons b t2 =>
      simp only [List.cons_append, List.append_eq, joinSep] at ih ⊢
      rw [ih (by simp)]
      simp [String.append_assoc]

/-- Helper: the generated parameter lists strictly grow with the arity. -/
theorem gateList_length_lt (p : String) (hp : 0 < p.length) (n : ℕ) :
    (gateList p n).length < (gateList p (n + 1)).length := by
  cases n with
  | zero =>
    have h0 : gateList p 0 = "" := rfl
    have h1 : gateList p 1 = p ++ toString 1 := rfl
    rw [h0, h1, String.length_append]
    have ht : (0 : ℕ) ≤ (toString 1).length := Nat.zero_le _
    simp only [String.length_empty]
    omega
  | succ m =>
    have hne : (List.map (fun j => p ++ toString j)
        (List.range' 1 (m + 1))) ≠ [] := by
      have hl : (List.map (fun j => p ++ toString j)
          (List.range' 1 (m + 1))).length = m + 1 := by simp
      intro hcon
      rw [hcon] at hl
      simp at hl
    have h2 : gateList p (m + 1 + 1)
        = gateList p (m + 1) ++ ", " ++ (p ++ toString (1 + (m + 1))) := by
      unfold gateList
      rw [List.range'_1_concat, List.map_append]
      simp only [List.map_cons, List.map_nil]
      rw [joinSep_append _ _ _ hne]
    have hsep : (", " : String).length = 2 := rfl
    rw [h2, String.length_append, String.length_append, hsep]
    omega

/-- Helper: the forward kernel's input parameter list strictly grows with
the arity. -/
theorem fwd_inParams_strictMono :
    StrictMono (fun n => (treelstm_fwd_src n).inParams.length) := by
  apply strictMono_nat_of_lt_succ
  intro n
  simp only [treelstm_fwd_src, String.length_append]
  have h1 := gateList_length_lt "T c" (by decide) n
  have h2 := gateList_length_lt "T f" (by decide) n
  omega

/-- Helper: the backward kernel's input parameter list strictly grows with
the arity. -/
theorem bwd_inParams_strictMono :
    StrictMono (fun n => (treelstm_bwd_src n).inParams.length) := by
  apply strictMono_nat_of_lt_succ
  intro n
  simp only [treelstm_bwd_src, String.length_append]
  have h1 := gateList_length_lt "T c" (by decide) n
  have h2 := gateList_length_lt "T f" (by decide) n
  omega

/-- C8: for distinct arities `N ≠ N'` (each at least 2) the generated fused
kernel source texts (parameter lists, body, preamble) differ, both for the
forward and for the backward kernel. -/
theorem C8_kernel_text_distinct (n m : ℕ) (hn : 2 ≤ n) (hm : 2 ≤ m)
    (hnm : n ≠ m) :
    treelstm_fwd_src n ≠ treelstm_fwd_src m ∧
    treelstm_bwd_src n ≠ treelstm_bwd_src m := by
  constructor
  · intro h
    exact hnm (fwd_inParams_strictMono.injective
      (congrArg (fun s => s.inParams.length) h))
  · intro h
    exact hnm (bwd_inParams_strictMono.injective
      (congrArg (fun s => s.inParams.length) h))

/-- Witness for C8 at the arities 2 and 3. -/
theorem C8_kernel_text_distinct_witness :
    2 ≤ 2 ∧ 2 ≤ 3 ∧ (2 : ℕ) ≠ 3 ∧
    (treelstm_fwd_src 2 ≠ treelstm_fwd_src 3 ∧
      treelstm_bwd_src 2 ≠ treelstm_bwd_src 3) :=
  ⟨by decide, by decide, by decide,
    C8_kernel_text_distinct 2 3 (by decide) (by decide) (by decide)⟩

end NaryTreeLSTM
